import Mathlib

/-!
Verification development for the `rvec::rope_vector` chunked sequence container.

The container under study is the evolved header (the variant carrying
`start_index` and `front_chunk_index` bookkeeping, raw `T*` chunk handles and
explicit `allocate_chunk` / `free_chunk` calls).  We embed it shallowly:

* a chunk is a pair `(id, data)` where `id : Nat` is a unique allocation
  identifier (standing for the `T*` handle) and `data : List α` are the
  `ChunkSize` slots; freshly allocated slots carry `default` (for `int`
  instantiations the C++ contents are indeterminate, but every claim we settle
  only reads slots the code itself wrote, or fails on an out-of-bounds chunk
  access before any junk value matters);
* the `released` field logs, in order, every chunk id handed to `free_chunk`
  (the C++ code never removes a freed handle from the vector, so the handle can
  stay in `chunks` after its id was logged — exactly as in the source);
* `size_type` is a 64-bit unsigned integer; the one place where its wraparound
  matters (`start_index + new_size - 1` inside `resize`) is modelled with an
  explicit `% 2^64`, every other arithmetic operation stays far below `2^64`
  on the inputs we evaluate;
* an access `chunks[k]` with `k` outside the vector, or a documented
  precondition violation (`assert(pos <= total_size)` and friends at function
  entry), is undefined behaviour in C++; fallible operations therefore return
  `Option`, with `none` standing for that undefined behaviour.  The internal
  `assert(i < total_size)` inside `operator[]` is a debug-only consistency
  check and is modelled as unchecked (release semantics), the physical bounds
  check on the chunk vector is kept;
* the `while` loops of `ensure_capacity_for` and `shrink_to_fit` are embedded
  as structural recursion on an explicit iteration bound: `ensure_capacity_for`
  appends one chunk per iteration and (for `ChunkSize > 0`) exits as soon as
  `chunks.size() * ChunkSize > i`, which takes at most `i + 1` appends, and the
  shrink loop pops one chunk per iteration, hence at most `chunks.length`
  iterations; the bounds are provably sufficient, so the recursion computes the
  same fixpoint as the source loops;
* moving a value out of a slot (`std::move` on a trivially copyable element
  type such as `int`) leaves the source slot's value in place; shifts are
  modelled as plain copies.

The checked-access header `include/rvec/rope_vector.hpp` (the variant that
throws `std::out_of_range`) is embedded separately at the end of the
definitions, as namespace `hpp`.
-/

namespace RvecModel

/-- Modulus of `std::size_t` arithmetic on the 64-bit target. -/
def U64 : Nat := 2 ^ 64

/-- C++ evaluation of the unsigned expression `a + b - 1` over `std::size_t`:
each intermediate result is reduced modulo `2^64`. -/
def cppSub1 (a b : Nat) : Nat := ((a % U64 + b % U64) % U64 + (U64 - 1)) % U64

/-- State of a `rope_vector<T, ChunkSize>` object, plus the allocation book
keeping needed to reason about chunk release: `chunks` mirrors the
`std::vector<T*> chunks` member (one `(id, slots)` entry per held handle),
`totalSize`, `startIndex`, `frontChunkIndex` mirror `total_size`,
`start_index`, `front_chunk_index`; `nextId` is the next fresh allocation id
and `released` logs every id passed to `free_chunk`, in call order. -/
structure RVec (α : Type) where
  chunks : List (Nat × List α)
  totalSize : Nat
  startIndex : Nat
  frontChunkIndex : Nat
  nextId : Nat
  released : List Nat
deriving DecidableEq

/-- The default-constructed container: no chunks, all bookkeeping zero. -/
def emptyState (α : Type) : RVec α := ⟨[], 0, 0, 0, 0, []⟩

/-- `chunk_index(i) = i / ChunkSize`. -/
def chunk_index (C i : Nat) : Nat := i / C

/-- `within_chunk_index(i) = i % ChunkSize`. -/
def within_chunk_index (C i : Nat) : Nat := i % C

/-- `allocate_chunk()` followed by `chunks.emplace_back(...)`: append a fresh
chunk handle at the tail. -/
def alloc_chunk (C : Nat) {α : Type} [Inhabited α] (s : RVec α) : RVec α :=
  { s with chunks := s.chunks ++ [(s.nextId, List.replicate C default)]
           nextId := s.nextId + 1 }

/-- Body of the `ensure_capacity_for` loop: while `i >= chunks.size() * C`,
append one chunk.  The first argument cuts the iteration count; it is
instantiated with `i + 1`, which is enough for the loop to reach its exit
condition whenever `0 < C` (each iteration grows `chunks.length` by one). -/
def ensure_go (C : Nat) {α : Type} [Inhabited α] (i : Nat) : Nat → RVec α → RVec α
  | 0, s => s
  | fuel + 1, s =>
    if s.chunks.length * C ≤ i then ensure_go C i fuel (alloc_chunk C s) else s

/-- `ensure_capacity_for(i)`: allocate chunks until position `i` falls inside
an existing chunk. -/
def ensure_capacity_for (C : Nat) {α : Type} [Inhabited α] (s : RVec α) (i : Nat) : RVec α :=
  ensure_go C i (i + 1) s

/-- `grow_front()`: `chunks.insert(chunks.begin(), allocate_chunk());
start_index += ChunkSize; ++front_chunk_index;` — embedded verbatim. -/
def grow_front (C : Nat) {α : Type} [Inhabited α] (s : RVec α) : RVec α :=
  { s with chunks := (s.nextId, List.replicate C default) :: s.chunks
           startIndex := s.startIndex + C
           frontChunkIndex := s.frontChunkIndex + 1
           nextId := s.nextId + 1 }

/-- Read through `operator[]`: `real_index = start_index + i`, then
`chunks[front_chunk_index + chunk_index(real_index)][within_chunk_index(real_index)]`.
`none` signals an access outside the chunk vector (undefined behaviour in the
source). -/
def readAt (C : Nat) {α : Type} (s : RVec α) (i : Nat) : Option α :=
  let real := s.startIndex + i
  match s.chunks[s.frontChunkIndex + chunk_index C real]? with
  | none => none
  | some (_, data) => data[within_chunk_index C real]?

/-- Write through `operator[]`; same resolution as `readAt`. -/
def writeAt (C : Nat) {α : Type} (s : RVec α) (i : Nat) (v : α) : Option (RVec α) :=
  let real := s.startIndex + i
  let k := s.frontChunkIndex + chunk_index C real
  match s.chunks[k]? with
  | none => none
  | some (id, data) =>
    if within_chunk_index C real < data.length then
      some { s with chunks := s.chunks.set k (id, data.set (within_chunk_index C real) v) }
    else none

/-- `size()`. -/
def size {α : Type} (s : RVec α) : Nat := s.totalSize

/-- `empty()`. -/
def empty {α : Type} (s : RVec α) : Bool := s.totalSize == 0

/-- `capacity() = (chunks.size() - front_chunk_index) * ChunkSize - start_index`.
Truncated `Nat` subtraction; on every state this development evaluates it the
subtractions do not underflow, so it agrees with the unsigned source. -/
def capacity (C : Nat) {α : Type} (s : RVec α) : Nat :=
  (s.chunks.length - s.frontChunkIndex) * C - s.startIndex

/-- `memory_used() = chunks.size() * ChunkSize * sizeof(T)`, with `es` standing
for `sizeof(T)`. -/
def memory_used (C es : Nat) {α : Type} (s : RVec α) : Nat :=
  s.chunks.length * C * es

/-- `push_back(value)`: `ensure_capacity_for(start_index + total_size);
(*this)[total_size++] = value;`. -/
def push_back (C : Nat) {α : Type} [Inhabited α] (v : α) (s : RVec α) : Option (RVec α) :=
  let s1 := ensure_capacity_for C s (s.startIndex + s.totalSize)
  (writeAt C s1 s1.totalSize v).map fun s2 => { s2 with totalSize := s2.totalSize + 1 }

/-- The left-shift loop `for (i = first; count steps; ++i) (*this)[i] = (*this)[i+1];`
used by `erase` and by the front-growing branch of `insert`. -/
def shift_left_go (C : Nat) {α : Type} : Nat → Nat → RVec α → Option (RVec α)
  | 0, _, s => some s
  | k + 1, i, s =>
    match readAt C s (i + 1) with
    | none => none
    | some v =>
      match writeAt C s i v with
      | none => none
      | some s2 => shift_left_go C k (i + 1) s2

/-- The right-shift loop `for (i = total_size; i > pos; --i) (*this)[i] = (*this)[i-1];`
used by the tail branch of `insert`. -/
def shift_right_go (C : Nat) {α : Type} : Nat → Nat → RVec α → Option (RVec α)
  | 0, _, s => some s
  | k + 1, i, s =>
    match readAt C s (i - 1) with
    | none => none
    | some v =>
      match writeAt C s i v with
      | none => none
      | some s2 => shift_right_go C k (i - 1) s2

/-- `insert(pos, value)` with its four-way direction policy, embedded branch by
branch.  The entry `assert(pos <= total_size)` is the documented precondition;
its violation is `none`. -/
def insert (C : Nat) {α : Type} [Inhabited α] (pos : Nat) (v : α) (s : RVec α) : Option (RVec α) :=
  if pos ≤ s.totalSize then
    let s1 := ensure_capacity_for C s (s.startIndex + s.totalSize)
    if pos = 0 then
      let s2 := if s1.startIndex = 0 then grow_front C s1 else s1
      let s3 := { s2 with startIndex := s2.startIndex - 1, totalSize := s2.totalSize + 1 }
      writeAt C s3 0 v
    else if pos = s1.totalSize then
      push_back C v s1
    else if pos < s1.totalSize / 2 then
      let s2 := if s1.startIndex = 0 then grow_front C s1 else s1
      let s3 := { s2 with startIndex := s2.startIndex - 1, totalSize := s2.totalSize + 1 }
      match shift_left_go C pos 0 s3 with
      | none => none
      | some s4 => writeAt C s4 pos v
    else
      match shift_right_go C (s1.totalSize - pos) s1.totalSize s1 with
      | none => none
      | some s2 =>
        (writeAt C s2 pos v).map fun s3 => { s3 with totalSize := s3.totalSize + 1 }
  else none

/-- `erase(pos)`: shift the tail left by one, then `--total_size`.  The entry
`assert(pos < total_size)` is the documented precondition. -/
def erase (C : Nat) {α : Type} (pos : Nat) (s : RVec α) : Option (RVec α) :=
  if pos < s.totalSize then
    (shift_left_go C (s.totalSize - 1 - pos) pos s).map fun s2 =>
      { s2 with totalSize := s2.totalSize - 1 }
  else none

/-- `erase_front()`: `++start_index; --total_size;` then, when
`start_index >= ChunkSize`, `free_chunk(chunks[front_chunk_index]);
++front_chunk_index; start_index -= ChunkSize;`.  The freed handle stays in
`chunks` (the source never removes it); only its id is logged in `released`. -/
def erase_front (C : Nat) {α : Type} (s : RVec α) : Option (RVec α) :=
  if s.totalSize = 0 then none
  else
    let s1 := { s with startIndex := s.startIndex + 1, totalSize := s.totalSize - 1 }
    if C ≤ s1.startIndex then
      match s1.chunks[s1.frontChunkIndex]? with
      | none => none
      | some (id, _) =>
        some { s1 with released := s1.released ++ [id]
                       frontChunkIndex := s1.frontChunkIndex + 1
                       startIndex := s1.startIndex - C }
    else some s1

/-- `clear()`: free every chunk handle, empty the vector, zero all
bookkeeping. -/
def clear {α : Type} (s : RVec α) : RVec α :=
  { s with released := s.released ++ s.chunks.map Prod.fst
           chunks := []
           totalSize := 0
           startIndex := 0
           frontChunkIndex := 0 }

/-- The ids the destructor hands to `free_chunk`: every handle still in
`chunks`, appended to the ids already released earlier in the object's life. -/
def destructor_releases {α : Type} (s : RVec α) : List Nat :=
  s.released ++ s.chunks.map Prod.fst

/-- The raw write `chunks[chunk_index(i)][within_chunk_index(i)] = T{}` used by
the fill loop of `resize` — note the source indexes by the bare loop counter,
with no `start_index` or `front_chunk_index` adjustment.  After
`ensure_capacity_for` both coordinates are in bounds on the states `resize`
produces, so a total no-op-on-overflow write is faithful. -/
def raw_write_default (C : Nat) {α : Type} [Inhabited α] (s : RVec α) (i : Nat) : RVec α :=
  match s.chunks[chunk_index C i]? with
  | none => s
  | some (id, data) =>
    { s with chunks := s.chunks.set (chunk_index C i) (id, data.set (within_chunk_index C i) default) }

/-- The fill loop `for (i = total_size; i < new_size; ++i)` of `resize`. -/
def raw_fill_go (C : Nat) {α : Type} [Inhabited α] : Nat → Nat → RVec α → RVec α
  | 0, _, s => s
  | k + 1, i, s => raw_fill_go C k (i + 1) (raw_write_default C s i)

/-- `resize(new_size)`: shrink truncates `total_size` only; growth calls
`ensure_capacity_for(start_index + new_size - 1)` (unsigned arithmetic, hence
`cppSub1`) and default-fills the raw slots `total_size .. new_size - 1`. -/
def resize (C : Nat) {α : Type} [Inhabited α] (s : RVec α) (n : Nat) : RVec α :=
  if n < s.totalSize then { s with totalSize := n }
  else
    let s1 := ensure_capacity_for C s (cppSub1 s.startIndex n)
    let s2 := raw_fill_go C (n - s1.totalSize) s1.totalSize s1
    { s2 with totalSize := n }

/-- `reserve(n)`: `if (n > capacity()) ensure_capacity_for(start_index + n - 1);`. -/
def reserve (C : Nat) {α : Type} [Inhabited α] (s : RVec α) (n : Nat) : RVec α :=
  if capacity C s < n then ensure_capacity_for C s (cppSub1 s.startIndex n) else s

/-- `required_chunks` of `shrink_to_fit`:
`chunk_index(start_index + total_size) + (within_chunk_index(start_index + total_size) ? 1 : 0)`. -/
def required_chunks (C : Nat) {α : Type} (s : RVec α) : Nat :=
  chunk_index C (s.startIndex + s.totalSize) +
    (if within_chunk_index C (s.startIndex + s.totalSize) ≠ 0 then 1 else 0)

/-- One iteration of the shrink loop: `free_chunk(chunks.back()); chunks.pop_back();`. -/
def free_back {α : Type} (s : RVec α) : RVec α :=
  match s.chunks.getLast? with
  | none => s
  | some (id, _) =>
    { s with released := s.released ++ [id], chunks := s.chunks.dropLast }

/-- The `while (chunks.size() > required_chunks)` loop of `shrink_to_fit`;
each iteration pops one chunk, so `chunks.length` iterations always reach the
exit condition. -/
def shrink_go {α : Type} (required : Nat) : Nat → RVec α → RVec α
  | 0, s => s
  | fuel + 1, s =>
    if required < s.chunks.length then shrink_go required fuel (free_back s) else s

/-- `shrink_to_fit()`. -/
def shrink_to_fit (C : Nat) {α : Type} (s : RVec α) : RVec α :=
  shrink_go (required_chunks C s) s.chunks.length s

/-- Push a whole list of values, left to right (a sequence of `push_back`
calls). -/
def push_list (C : Nat) {α : Type} [Inhabited α] (vs : List α) (s : RVec α) : Option (RVec α) :=
  vs.foldlM (fun st v => push_back C v st) s

/-- Apply `erase_front` `n` times. -/
def erase_front_n (C : Nat) {α : Type} : Nat → RVec α → Option (RVec α)
  | 0, s => some s
  | n + 1, s => (erase_front C s).bind (erase_front_n C n)

end RvecModel

namespace hpp

/-- State of the checked-access header `include/rvec/rope_vector.hpp`: that
variant has no front growth, so only the chunk slots and `total_size` exist. -/
structure HVec (α : Type) where
  chunks : List (List α)
  totalSize : Nat

/-- The two failure kinds of the error taxonomy.  The C++ header realizes both
as a thrown `std::out_of_range`, distinguished by message ("index out of
range" for `at`, "called on empty vector" for `front`/`back`); a thrown
exception returns control to the caller, which the embedding renders as an
`Except.error` value. -/
inductive AccessErr where
  | outOfRange
  | emptyContainer
deriving DecidableEq

/-- Unchecked read `chunks[chunk_index(i)][within_chunk_index(i)]`; `none` is
an access outside the allocated chunks (undefined behaviour). -/
def get_raw (C : Nat) {α : Type} (s : HVec α) (i : Nat) : Option α :=
  (s.chunks[i / C]?).bind fun data => data[i % C]?

/-- `at(i)`: `if (i >= total_size) throw std::out_of_range(...); return (*this)[i];`.
The member mutates nothing — the embedding is a pure function of the state. -/
def at_ (C : Nat) {α : Type} (s : HVec α) (i : Nat) : Except AccessErr (Option α) :=
  if s.totalSize ≤ i then Except.error AccessErr.outOfRange
  else Except.ok (get_raw C s i)

/-- `front()`: `if (empty()) throw std::out_of_range(...); return (*this)[0];`. -/
def front (C : Nat) {α : Type} (s : HVec α) : Except AccessErr (Option α) :=
  if s.totalSize = 0 then Except.error AccessErr.emptyContainer
  else Except.ok (get_raw C s 0)

/-- `back()`: `if (empty()) throw std::out_of_range(...); return (*this)[total_size - 1];`. -/
def back (C : Nat) {α : Type} (s : HVec α) : Except AccessErr (Option α) :=
  if s.totalSize = 0 then Except.error AccessErr.emptyContainer
  else Except.ok (get_raw C s (s.totalSize - 1))

end hpp

namespace RvecModel

/-! Concrete scenario states (`ChunkSize = 4`, element type `Nat`).  Each
claim's states are built only from the public operations, starting at the
default-constructed container. -/

/-- The container holding `[10, 20, 30]` (one chunk, `start_index = 0`). -/
def c1pre : Option (RVec Nat) := push_list 4 [10, 20, 30] (emptyState Nat)

/-- `insert(0, 5)` on `[10, 20, 30]`. -/
def c1post : Option (RVec Nat) := c1pre.bind (insert 4 0 5)

/-- `push_back` of 10, 20, 30, 40 (exactly one full chunk) followed by four
`erase_front()` calls; the fourth crosses the chunk boundary and frees the
front chunk while its handle stays in the chunk vector. -/
def c2post : Option (RVec Nat) :=
  (push_list 4 [10, 20, 30, 40] (emptyState Nat)).bind (erase_front_n 4 4)

/-- The container holding `[10, 20, 30]` again (own copy for claim C3). -/
def c3pre : Option (RVec Nat) := push_list 4 [10, 20, 30] (emptyState Nat)

/-- `insert(0, 5)` then `erase(0)` on `[10, 20, 30]`. -/
def c3post : Option (RVec Nat) := (c3pre.bind (insert 4 0 5)).bind (erase 4 0)

/-- Five pushes (two chunks) then four `erase_front()` calls: the surviving
element 50 lives in the second chunk and `front_chunk_index = 1`. -/
def c4pre : Option (RVec Nat) :=
  (push_list 4 [10, 20, 30, 40, 50] (emptyState Nat)).bind (erase_front_n 4 4)

/-- `shrink_to_fit()` on that state. -/
def c4post : Option (RVec Nat) := c4pre.map (shrink_to_fit 4)

/-- Same reachable state for the memory accounting claim: two handles in the
chunk vector, `front_chunk_index = 1`. -/
def c5st : Option (RVec Nat) :=
  (push_list 4 [10, 20, 30, 40, 50] (emptyState Nat)).bind (erase_front_n 4 4)

/-- Three pushes then one `erase_front()`: sequence `[20, 30]` with
`start_index = 1`. -/
def c6pre : Option (RVec Nat) :=
  (push_list 4 [10, 20, 30] (emptyState Nat)).bind (erase_front 4)

/-- `resize(4)` on that state. -/
def c6post : Option (RVec Nat) := c6pre.map (fun s => resize 4 s 4)

/-- Four pushes then four `erase_front()` calls: capacity 0 with one retired
handle in the chunk vector. -/
def c7pre : Option (RVec Nat) :=
  (push_list 4 [10, 20, 30, 40] (emptyState Nat)).bind (erase_front_n 4 4)

/-- `reserve(4)` on that state. -/
def c7post : Option (RVec Nat) := c7pre.map (fun s => reserve 4 s 4)

/-- A one-chunk container state used to witness the amended memory formula. -/
def c5simple : RVec Nat := ⟨[(0, [1, 2, 3, 4])], 4, 0, 0, 1, []⟩

end RvecModel

namespace RvecModel

/-! Supporting lemmas about the allocation loop. -/

/-- Appending one chunk grows the chunk count by one. -/
theorem alloc_chunk_length (C : Nat) {α : Type} [Inhabited α] (s : RVec α) :
    (alloc_chunk C s).chunks.length = s.chunks.length + 1 := by
  simp [alloc_chunk]

/-- The allocation loop never drops chunks. -/
theorem ensure_go_length_le (C i : Nat) {α : Type} [Inhabited α] :
    ∀ (fuel : Nat) (s : RVec α), s.chunks.length ≤ (ensure_go C i fuel s).chunks.length := by
  intro fuel
  induction fuel with
  | zero => intro s; exact Nat.le_refl _
  | succ f ih =>
    intro s
    rw [ensure_go]
    by_cases h : s.chunks.length * C ≤ i
    · rw [if_pos h]
      calc s.chunks.length ≤ (alloc_chunk C s).chunks.length := by
            rw [alloc_chunk_length]; exact Nat.le_succ _
        _ ≤ _ := ih (alloc_chunk C s)
    · rw [if_neg h]

/-- If the loop guard holds on entry and there is fuel left, at least one chunk
is appended. -/
theorem ensure_go_grows (C i : Nat) {α : Type} [Inhabited α] (fuel : Nat) (s : RVec α)
    (hf : 0 < fuel) (h : s.chunks.length * C ≤ i) :
    s.chunks.length + 1 ≤ (ensure_go C i fuel s).chunks.length := by
  cases fuel with
  | zero => exact absurd hf (Nat.lt_irrefl 0)
  | succ f =>
    rw [ensure_go, if_pos h]
    calc s.chunks.length + 1 = (alloc_chunk C s).chunks.length :=
          (alloc_chunk_length C s).symm
      _ ≤ _ := ensure_go_length_le C i f (alloc_chunk C s)

/-- The iteration bound `i + 1` is sufficient: for a positive `ChunkSize`, the
loop of `ensure_capacity_for` always reaches its exit condition
`i < chunks.size() * ChunkSize` before the bound runs out, so the embedding
computes the same result as the unbounded source loop. -/
theorem ensure_go_post (C i : Nat) {α : Type} [Inhabited α] :
    ∀ (fuel : Nat) (s : RVec α), i + 1 ≤ fuel * C + s.chunks.length * C →
      i < (ensure_go C i fuel s).chunks.length * C := by
  intro fuel
  induction fuel with
  | zero => intro s h; rw [ensure_go]; omega
  | succ f ih =>
    intro s h
    rw [ensure_go]
    by_cases hg : s.chunks.length * C ≤ i
    · rw [if_pos hg]
      apply ih
      rw [alloc_chunk_length]
      have : (f + 1) * C = f * C + C := by ring
      have h2 : (s.chunks.length + 1) * C = s.chunks.length * C + C := by ring
      omega
    · rw [if_neg hg]; omega

/-- Postcondition of `ensure_capacity_for` for positive `ChunkSize`: the
requested position lies strictly inside the allocated chunks, exactly the
negation of the source loop's guard. -/
theorem ensure_capacity_for_post (C i : Nat) {α : Type} [Inhabited α] (s : RVec α)
    (hC : 0 < C) : i < (ensure_capacity_for C s i).chunks.length * C := by
  apply ensure_go_post
  have : i + 1 ≤ (i + 1) * C := Nat.le_mul_of_pos_right _ hC
  omega

/-- The fill loop of `resize` only rewrites slots; the chunk count is
unchanged. -/
theorem raw_fill_go_length (C : Nat) {α : Type} [Inhabited α] :
    ∀ (k i : Nat) (s : RVec α), (raw_fill_go C k i s).chunks.length = s.chunks.length := by
  intro k
  induction k with
  | zero => intro i s; rfl
  | succ m ih =>
    intro i s
    rw [raw_fill_go, ih]
    unfold raw_write_default
    cases h : s.chunks[chunk_index C i]? with
    | none => rfl
    | some c => cases c with
      | mk id data => simp [List.length_set]

end RvecModel

namespace RvecModel

/-- C1: the claim states that `grow_front()` adjusts the bookkeeping so every
live logical index resolves to its old value, and that `insert(0, 5)` on
`[10, 20, 30]` yields `[5, 10, 20, 30]`.  The code violates this: `grow_front`
prepends a chunk (shifting every existing chunk up one physical slot) and, on
top of that shift, bumps both `start_index` by `ChunkSize` and
`front_chunk_index` by one, so after `insert(0, 5)` the element written as the
new front is found, but every previously-live index resolves one chunk past
its data — logical index 1 resolves to chunk slot 2 of a 2-entry chunk vector,
an out-of-bounds access (`none`), instead of holding 10. -/
theorem c1_grow_front_breaks_translation :
    c1pre.map (fun s => (size s, readAt 4 s 0, readAt 4 s 1, readAt 4 s 2)) =
      some (3, some 10, some 20, some 30) ∧
    c1post.map (fun s => (size s, readAt 4 s 0, readAt 4 s 1, readAt 4 s 2, readAt 4 s 3)) =
      some (4, some 5, none, none, none) := by
  decide

/-- C2: the claim states that no chunk is ever released twice over the
container's lifetime.  The code violates this: `erase_front()` frees the
vacated front chunk when `start_index` crosses the chunk boundary but leaves
the freed handle inside the chunk vector, and the destructor then frees every
handle still in the vector — after `push_back` of 10, 20, 30, 40 and four
`erase_front()` calls, the front chunk (id 0) appears once in the erase-front
release log and once more among the handles the destructor frees: released
twice. -/
theorem c2_front_chunk_released_twice :
    c2post.map (fun s => (s.released, s.chunks.map Prod.fst, (destructor_releases s).count 0)) =
      some ([0], [0], 2) := by
  decide

/-- C3: the claim states that `insert(pos, v)` followed by `erase(pos)`
restores the prior sequence for every valid `pos`.  At `pos = 0` on
`[10, 20, 30]` (with `start_index = 0`) the code violates this: the broken
`grow_front` bookkeeping makes the subsequent `erase(0)` read logical index 1
from chunk slot 2 of a 2-entry chunk vector — out of bounds, so the composite
operation is undefined behaviour (`none`) rather than the original
`[10, 20, 30]`. -/
theorem c3_insert_erase_roundtrip_fails :
    c3pre.map (fun s => (size s, readAt 4 s 0, readAt 4 s 1, readAt 4 s 2)) =
      some (3, some 10, some 20, some 30) ∧
    c3post = none := by
  decide

/-- C4: the claim states that `shrink_to_fit()` never releases a chunk holding
a live element and never changes any element's value.  The code violates this:
`required_chunks` is computed from `start_index + total_size` alone, ignoring
`front_chunk_index`, so on the reachable state with two handles, a retired
front chunk and the single live element 50 in the second chunk
(`front_chunk_index = 1`), `shrink_to_fit()` frees that second, live chunk
(id 1 joins the release log) and pops it; `size()` still reports 1 but logical
index 0 now resolves out of bounds. -/
theorem c4_shrink_releases_live_chunk :
    c4pre.map (fun s => (size s, readAt 4 s 0, s.chunks.length, s.frontChunkIndex, s.released)) =
      some (1, some 50, 2, 1, [0]) ∧
    c4post.map (fun s => (size s, readAt 4 s 0, s.chunks.length, s.released)) =
      some (1, none, 1, [0, 1]) := by
  decide

/-- C5 (counterexample): the claim states
`memory_used() = (|ChunkArray| - FrontChunkIndex) * ChunkSize * element_size`.
On the reachable state with two handles and `front_chunk_index = 1`
(`ChunkSize = 4`, `element_size = 4`) the code returns `2 * 4 * 4 = 32`, the
claimed formula gives `1 * 4 * 4 = 16`: the claim is false on this state. -/
theorem c5_memory_used_counterexample :
    c5st.map (fun s =>
        decide (memory_used 4 4 s = (s.chunks.length - s.frontChunkIndex) * 4 * 4)) =
      some false ∧
    c5st.map (fun s =>
        (memory_used 4 4 s, (s.chunks.length - s.frontChunkIndex) * 4 * 4)) =
      some (32, 16) := by
  decide

/-- C5 (amended): `memory_used()` returns `|ChunkArray| * ChunkSize *
element_size` — it counts every handle still held, including retired front
chunks; the claimed formula with the `FrontChunkIndex` subtraction holds
exactly on states whose `FrontChunkIndex` is zero. -/
theorem c5_memory_used_amended (C es : Nat) {α : Type} (s : RVec α)
    (h : s.frontChunkIndex = 0) :
    memory_used C es s = (s.chunks.length - s.frontChunkIndex) * C * es := by
  simp [memory_used, h]

/-- C5 (witness for the amended theorem): a concrete one-chunk state with
`frontChunkIndex = 0`, evaluated at `ChunkSize = 4`, `element_size = 4`. -/
theorem c5_memory_used_amended_witness :
    c5simple.frontChunkIndex = 0 ∧
    memory_used 4 4 c5simple = (c5simple.chunks.length - c5simple.frontChunkIndex) * 4 * 4 :=
  ⟨rfl, c5_memory_used_amended 4 4 c5simple rfl⟩

/-- C6: the claim states that growing `resize(n)` fills the new logical slots
with a default value and leaves the first `size()` elements unchanged.  The
code violates this: the fill loop writes
`chunks[chunk_index(i)][within_chunk_index(i)]` with the bare loop counter
`i`, omitting `start_index` and `front_chunk_index`, so on the reachable state
`[20, 30]` with `start_index = 1`, `resize(4)` overwrites the slot of live
logical index 1 — the element 30 becomes the default 0. -/
theorem c6_resize_fill_overwrites_live :
    c6pre.map (fun s => (size s, readAt 4 s 0, readAt 4 s 1)) =
      some (2, some 20, some 30) ∧
    c6post.map (fun s => (size s, readAt 4 s 0, readAt 4 s 1)) =
      some (4, some 20, some 0) := by
  decide

/-- C7: the claim states that after `reserve(n)` the container satisfies
`capacity() >= n`.  The code violates this: `ensure_capacity_for` compares the
requested position against `chunks.size() * ChunkSize`, ignoring the chunks
already retired at the front, so on the reachable state with one retired
handle (`front_chunk_index = 1`, `capacity() = 0`) the call `reserve(4)`
allocates nothing and leaves `capacity() = 0 < 4`. -/
theorem c7_reserve_misses_capacity :
    c7pre.map (fun s => (capacity 4 s, size s, s.chunks.length, s.frontChunkIndex)) =
      some (0, 0, 1, 1) ∧
    c7post.map (fun s => (capacity 4 s, size s, s.chunks.length)) =
      some (0, 0, 1) := by
  decide

/-- C8: in the checked-access header, `at(i)` fails with the recoverable
out-of-range error exactly when `i >= size()`, `front()` and `back()` fail
with the recoverable empty-container error exactly when `size() == 0`, and in
the non-failure cases the element is returned.  The failures are thrown
exceptions — `Except.error` values that return control to the caller — and the
accessors read but never modify the container (their embeddings are pure
functions of the state). -/
theorem c8_checked_access_errors (C : Nat) {α : Type} (s : hpp.HVec α) (i : Nat) :
    (hpp.at_ C s i = Except.error hpp.AccessErr.outOfRange ↔ s.totalSize ≤ i) ∧
    (hpp.at_ C s i = Except.ok (hpp.get_raw C s i) ↔ i < s.totalSize) ∧
    (hpp.front C s = Except.error hpp.AccessErr.emptyContainer ↔ s.totalSize = 0) ∧
    (hpp.front C s = Except.ok (hpp.get_raw C s 0) ↔ s.totalSize ≠ 0) ∧
    (hpp.back C s = Except.error hpp.AccessErr.emptyContainer ↔ s.totalSize = 0) ∧
    (hpp.back C s = Except.ok (hpp.get_raw C s (s.totalSize - 1)) ↔ s.totalSize ≠ 0) := by
  unfold hpp.at_ hpp.front hpp.back
  by_cases h : s.totalSize ≤ i <;> by_cases h0 : s.totalSize = 0 <;>
    simp [h, h0, Nat.not_le.mp, Nat.not_le.mpr]

/-- C9: on the default-constructed container, `resize(0)` takes the growing
branch (the shrink test `0 < 0` fails), and the position handed to
`ensure_capacity_for` is the unsigned expression `start_index + new_size - 1`,
which wraps modulo `2^64` to the maximum `size_type` value `2^64 - 1`; the
allocation-loop guard `chunks.size() * ChunkSize <= 2^64 - 1` therefore holds
and the loop allocates a chunk even though the requested size is 0. -/
theorem c9_resize_zero_wraps (C : Nat) :
    ¬ ((0 : Nat) < (emptyState Nat).totalSize) ∧
    cppSub1 (emptyState Nat).startIndex 0 = 2 ^ 64 - 1 ∧
    (emptyState Nat).chunks.length * C ≤ cppSub1 (emptyState Nat).startIndex 0 ∧
    1 ≤ (resize C (emptyState Nat) 0).chunks.length := by
  refine ⟨by decide, by decide, ?_, ?_⟩
  · show (emptyState Nat).chunks.length * C ≤ _
    have h : (emptyState Nat).chunks.length = 0 := rfl
    rw [h, Nat.zero_mul]
    exact Nat.zero_le _
  · have h0 : (emptyState Nat).chunks.length * C ≤ cppSub1 (emptyState Nat).startIndex 0 := by
      have h : (emptyState Nat).chunks.length = 0 := rfl
      rw [h, Nat.zero_mul]
      exact Nat.zero_le _
    have h1 := ensure_go_grows C (cppSub1 (emptyState Nat).startIndex 0)
      (cppSub1 (emptyState Nat).startIndex 0 + 1) (emptyState Nat) (Nat.succ_pos _) h0
    unfold resize
    rw [if_neg (by decide)]
    simp only [raw_fill_go_length]
    unfold ensure_capacity_for at *
    omega

/-- C10: `clear()` implements the full-release policy: it hands every handle
held in the chunk vector to `free_chunk`, empties the vector, and zeroes
`total_size`, `start_index` and `front_chunk_index`, so that afterwards
`size() == 0`, `empty()` holds, `capacity() == 0` and `memory_used() == 0`. -/
theorem c10_clear_full_release (C es : Nat) {α : Type} (s : RVec α) :
    size (clear s) = 0 ∧ empty (clear s) = true ∧ capacity C (clear s) = 0 ∧
    memory_used C es (clear s) = 0 ∧ (clear s).chunks = [] ∧
    (clear s).totalSize = 0 ∧ (clear s).startIndex = 0 ∧
    (clear s).frontChunkIndex = 0 ∧
    (clear s).released = s.released ++ s.chunks.map Prod.fst := by
  simp [clear, size, empty, capacity, memory_used]

end RvecModel
